import Mathlib

/-!
Verification of the teamm3ow-waf-dataset traffic-generation and log-parsing
scripts.  The Python sources are shallowly embedded: every definition below
is translated from a concrete function of the repository (webgoat.py,
dvwa_crawler.py, src/webgoatr/malacious.py, src/juiceshop/juice-shop.py,
src/dvwa/nginx_log_parser.py).  Randomized or external inputs (RNG draws,
faker output, HTTP responses) are passed in explicitly as arguments so that
the embedded control flow stays a pure function of its inputs.
-/

namespace WafDataset

/-! ## Byte-level utilities: UTF-8 encoding, hex printing -/

/-- UTF-8 encoding of a single Unicode code point, as a list of byte values.
Mirrors what Python's `str.encode()` produces for each character. -/
def utf8Char (n : Nat) : List Nat :=
  if n < 0x80 then [n]
  else if n < 0x800 then
    [0xC0 + n / 64, 0x80 + n % 64]
  else if n < 0x10000 then
    [0xE0 + n / 4096, 0x80 + (n / 64) % 64, 0x80 + n % 64]
  else
    [0xF0 + n / 262144, 0x80 + (n / 4096) % 64, 0x80 + (n / 64) % 64,
     0x80 + n % 64]

/-- UTF-8 encoding of a string (Python `s.encode()`), bytes as `Nat`. -/
def utf8 (s : String) : List Nat :=
  (s.toList.map (fun c => utf8Char c.toNat)).flatten

/-- Lower-case hex digit for a value `0..15`. -/
def hexDigit (n : Nat) : Char :=
  if n < 10 then Char.ofNat (48 + n) else Char.ofNat (87 + n)

/-- Two-digit lower-case hex rendering of one byte. -/
def hexByte (b : Nat) : List Char :=
  [hexDigit ((b / 16) % 16), hexDigit (b % 16)]

/-- Lower-case hex string of a byte list (Python `bytes.hex()` /
`hashlib`'s `hexdigest`). -/
def hexOfBytes (bs : List Nat) : String :=
  String.mk ((bs.map hexByte).flatten)

/-! ## MD5 (RFC 1321), over `Nat` with explicit reduction mod 2^32.

All generator scripts compute request signatures and row ids with
`hashlib.md5(...).hexdigest()`; this is that digest function. -/

def md5mask : Nat := 4294967295

/-- 32-bit truncating addition. -/
def add32 (a b : Nat) : Nat := (a + b) % 4294967296

/-- 32-bit bitwise complement. -/
def not32 (a : Nat) : Nat := Nat.xor a md5mask

/-- 32-bit left rotation by `n` bits. -/
def rotl32 (x n : Nat) : Nat :=
  Nat.land (Nat.lor (Nat.shiftLeft x n) (Nat.shiftRight x (32 - n))) md5mask

/-- The per-round shift amounts of MD5. -/
def md5s : List Nat :=
  [7, 12, 17, 22, 7, 12, 17, 22, 7, 12, 17, 22, 7, 12, 17, 22,
   5, 9, 14, 20, 5, 9, 14, 20, 5, 9, 14, 20, 5, 9, 14, 20,
   4, 11, 16, 23, 4, 11, 16, 23, 4, 11, 16, 23, 4, 11, 16, 23,
   6, 10, 15, 21, 6, 10, 15, 21, 6, 10, 15, 21, 6, 10, 15, 21]

/-- The MD5 sine-derived constant table. -/
def md5K : List Nat :=
  [0xd76aa478, 0xe8c7b756, 0x242070db, 0xc1bdceee,
   0xf57c0faf, 0x4787c62a, 0xa8304613, 0xfd469501,
   0x698098d8, 0x8b44f7af, 0xffff5bb1, 0x895cd7be,
   0x6b901122, 0xfd987193, 0xa679438e, 0x49b40821,
   0xf61e2562, 0xc040b340, 0x265e5a51, 0xe9b6c7aa,
   0xd62f105d, 0x02441453, 0xd8a1e681, 0xe7d3fbc8,
   0x21e1cde6, 0xc33707d6, 0xf4d50d87, 0x455a14ed,
   0xa9e3e905, 0xfcefa3f8, 0x676f02d9, 0x8d2a4c8a,
   0xfffa3942, 0x8771f681, 0x6d9d6122, 0xfde5380c,
   0xa4beea44, 0x4bdecfa9, 0xf6bb4b60, 0xbebfbc70,
   0x289b7ec6, 0xeaa127fa, 0xd4ef3085, 0x04881d05,
   0xd9d4d039, 0xe6db99e5, 0x1fa27cf8, 0xc4ac5665,
   0xf4292244, 0x432aff97, 0xab9423a7, 0xfc93a039,
   0x655b59c3, 0x8f0ccc92, 0xffeff47d, 0x85845dd1,
   0x6fa87e4f, 0xfe2ce6e0, 0xa3014314, 0x4e0811a1,
   0xf7537e82, 0xbd3af235, 0x2ad7d2bb, 0xeb86d391]

/-- Split a byte list into the sixteen little-endian 32-bit words of one
64-byte block. -/
def md5Words (block : List Nat) : Nat → Nat := fun j =>
  let b := fun i => block.getD i 0
  b (4 * j) + 256 * b (4 * j + 1) + 65536 * b (4 * j + 2) +
    16777216 * b (4 * j + 3)

/-- One MD5 round operation, indexed by `i : 0..63`, acting on `(a,b,c,d)`. -/
def md5Round (M : Nat → Nat) (i : Nat) :
    Nat × Nat × Nat × Nat → Nat × Nat × Nat × Nat := fun st =>
  let a := st.1
  let b := st.2.1
  let c := st.2.2.1
  let d := st.2.2.2
  let f :=
    if i < 16 then Nat.lor (Nat.land b c) (Nat.land (not32 b) d)
    else if i < 32 then Nat.lor (Nat.land b d) (Nat.land c (not32 d))
    else if i < 48 then Nat.xor (Nat.xor b c) d
    else Nat.xor c (Nat.lor b (not32 d))
  let g :=
    if i < 16 then i
    else if i < 32 then (5 * i + 1) % 16
    else if i < 48 then (3 * i + 5) % 16
    else (7 * i) % 16
  let rot := rotl32 (add32 (add32 (add32 a f) (md5K.getD i 0)) (M g))
    (md5s.getD i 0)
  (d, add32 b rot, b, c)

/-- Process one 64-byte block, updating the four-word state. -/
def md5Block (st : Nat × Nat × Nat × Nat) (block : List Nat) :
    Nat × Nat × Nat × Nat :=
  let M := md5Words block
  let r := (List.range 64).foldl (fun acc i => md5Round M i acc) st
  (add32 st.1 r.1, add32 st.2.1 r.2.1, add32 st.2.2.1 r.2.2.1,
   add32 st.2.2.2 r.2.2.2)

/-- Process the message 64 bytes at a time; the first argument is fuel
bounding the number of blocks (structural recursion so the kernel can
evaluate it). -/
def md5Blocks : Nat → Nat × Nat × Nat × Nat → List Nat →
    Nat × Nat × Nat × Nat
  | 0, st, _ => st
  | _ + 1, st, [] => st
  | n + 1, st, msg => md5Blocks n (md5Block st (msg.take 64)) (msg.drop 64)

/-- Little-endian rendering of `n` as `k` bytes. -/
def leBytes (k n : Nat) : List Nat :=
  (List.range k).map (fun i => (n / 256 ^ i) % 256)

/-- MD5 padding: a `0x80` byte, zeros to 56 mod 64, then the bit length as
a 64-bit little-endian quantity. -/
def md5Pad (msg : List Nat) : List Nat :=
  let padLen := (55 + 64 - msg.length % 64) % 64 + 1
  msg ++ (128 :: List.replicate (padLen - 1) 0) ++ leBytes 8 (msg.length * 8)

/-- The MD5 digest of a byte list, as 16 bytes. -/
def md5Bytes (msg : List Nat) : List Nat :=
  let init : Nat × Nat × Nat × Nat :=
    (0x67452301, 0xefcdab89, 0x98badcfe, 0x10325476)
  let padded := md5Pad msg
  let fin := md5Blocks padded.length init padded
  leBytes 4 fin.1 ++ leBytes 4 fin.2.1 ++ leBytes 4 fin.2.2.1 ++
    leBytes 4 fin.2.2.2

/-- `hashlib.md5(s.encode()).hexdigest()` for a string `s`. -/
def md5Hex (s : String) : String :=
  hexOfBytes (md5Bytes (utf8 s))

/-! ## Python value model

The request bodies and parameter dictionaries of the generators hold
strings and integers; dictionaries are modelled as association lists in
insertion order.  `repr`/`str` of these values is embedded because the
signature functions hash `str(sorted(d.items()))`. -/

inductive PyVal where
  | pstr (s : String)
  | pint (n : Int)
deriving DecidableEq, Repr

/-- Single-quote and double-quote characters (kept out of string literals). -/
def sqChar : Char := Char.ofNat 39

def dqChar : Char := Char.ofNat 34

def backslashChar : Char := Char.ofNat 92

/-- Python `repr` of a string: single-quoted unless the string contains a
single quote and no double quote; quote and backslash characters escaped. -/
def pyReprStr (s : String) : String :=
  let cs := s.toList
  let q := if cs.contains sqChar && !(cs.contains dqChar) then dqChar
           else sqChar
  let esc := cs.map (fun c =>
    if c = q || c = backslashChar then [backslashChar, c] else [c])
  String.mk (q :: esc.flatten ++ [q])

/-- Python `repr` of a value. -/
def pyReprVal : PyVal → String
  | .pstr s => pyReprStr s
  | .pint n => toString n

/-- Python `repr` of a `(key, value)` tuple. -/
def pyReprPair (p : String × PyVal) : String :=
  "(" ++ pyReprStr p.1 ++ ", " ++ pyReprVal p.2 ++ ")"

/-- Python `repr` of a list of `(key, value)` tuples. -/
def pyReprPairList (l : List (String × PyVal)) : String :=
  "[" ++ String.intercalate ", " (l.map pyReprPair) ++ "]"

/-- Python `repr` of a dict (insertion order preserved). -/
def pyReprDict (d : List (String × PyVal)) : String :=
  "\x7b" ++
    String.intercalate ", "
      (d.map (fun p => pyReprStr p.1 ++ ": " ++ pyReprVal p.2)) ++
  "\x7d"

/-- Code-point lexicographic order on character lists (Python `str` order). -/
def charListLe : List Char → List Char → Bool
  | [], _ => true
  | _ :: _, [] => false
  | a :: as, b :: bs =>
    if a.toNat < b.toNat then true
    else if b.toNat < a.toNat then false
    else charListLe as bs

def strLe (a b : String) : Bool := charListLe a.toList b.toList

/-- Stable insertion into a key-sorted pair list. -/
def insertByKey (p : String × PyVal) :
    List (String × PyVal) → List (String × PyVal)
  | [] => [p]
  | q :: qs => if strLe p.1 q.1 then p :: q :: qs else q :: insertByKey p qs

/-- Python `sorted(d.items())` for a dict with distinct keys. -/
def pySortedItems (d : List (String × PyVal)) : List (String × PyVal) :=
  d.foldr insertByKey []

/-- Python `str(sorted(d.items()) if d else "")`: the empty string for an
absent or empty dict, otherwise the repr of the sorted item list. -/
def strSortedOrEmpty : Option (List (String × PyVal)) → String
  | none => ""
  | some [] => ""
  | some d => pyReprPairList (pySortedItems d)

/-- `"|".join(components)`. -/
def barJoin (l : List String) : String := String.intercalate "|" l

/-! ## Request signatures, one per generator variant -/

/-- `JuiceShopGenerator._make_api_request` signature
(src/juiceshop/juice-shop.py lines 164-165):
`md5("|".join([method, endpoint, str(sorted(body.items()) if body else "")]))`.
-/
def juiceSig (method endpoint : String)
    (body : Option (List (String × PyVal))) : String :=
  md5Hex (barJoin [method, endpoint, strSortedOrEmpty body])

/-- A Python request body: `None`, a plain string, or a dict. -/
inductive PyBody where
  | noneB
  | strB (s : String)
  | dictB (d : List (String × PyVal))
deriving DecidableEq, Repr

/-- `str(sorted(body.items())) if isinstance(body, dict) else str(body)`
(webgoat.py line 653). -/
def webgoatBodyForSig : PyBody → String
  | .noneB => "None"
  | .strB s => s
  | .dictB d => pyReprPairList (pySortedItems d)

/-- `WebGoatGenerator._make_request` signature (webgoat.py lines 648-656):
for GET a random `str(uuid4())` nonce replaces the body component;
otherwise the sorted-body repr is hashed. -/
def webgoatSig (method endpoint : String) (body : PyBody)
    (nonce : String) : String :=
  if method = "GET" then md5Hex (barJoin [method, endpoint, nonce])
  else md5Hex (barJoin [method, endpoint, webgoatBodyForSig body])

/-- `WebGoatMaliciousGenerator._send_request` signature
(src/webgoatr/malacious.py lines 118-119):
`md5(f"POST [endpoint] [payload]")` with space separators. -/
def malSig (endpoint payload : String) : String :=
  md5Hex ("POST " ++ endpoint ++ " " ++ payload)

/-- Header names excluded from the DVWA signature
(dvwa_crawler.py line 822). -/
def dvwaVolatileHeaders : List String :=
  ["User-Agent", "X-Request-ID", "X-Correlation-ID"]

/-- `str(request_data) if request_data else ""` (dvwa_crawler.py line 820). -/
def dvwaRequestDataStr : PyBody → String
  | .noneB => ""
  | .strB s => if s = "" then "" else s
  | .dictB d => if d = [] then "" else pyReprDict d

/-- The comprehensive DVWA request signature
(dvwa_crawler.py lines 816-824): method, url, sorted params repr,
request-data string, content type, and the sorted repr of all headers
except the three volatile ones. -/
def dvwaSig (method url : String) (params : List (String × PyVal))
    (requestData : PyBody) (contentType : String)
    (headers : List (String × String)) : String :=
  let keptHeaders := (headers.filter
    (fun p => !(dvwaVolatileHeaders.contains p.1))).map
    (fun p => (p.1, PyVal.pstr p.2))
  md5Hex (barJoin
    [method, url, strSortedOrEmpty (some params),
     dvwaRequestDataStr requestData, contentType,
     pyReprPairList (pySortedItems keptHeaders)])

/-! ## A small backtracking regex engine

The nginx log parser (src/dvwa/nginx_log_parser.py) anchors one of four
regular expressions at the start of each line with `re.match`.  Those
patterns only combine literal characters, repeated single-character
classes, named captures, and one optional trailing group, so they are
embedded as item lists interpreted by a leftmost-greedy backtracking
matcher, the semantics `re.match` gives them. -/

/-- The character classes appearing in `LOG_FORMATS`. -/
inductive RegexClass where
  /-- `\S` — anything but whitespace. -/
  | nsp
  /-- `[^\]]` — anything but a closing square bracket. -/
  | nrb
  /-- `\d` — a decimal digit. -/
  | dgt
  /-- `[^"]` — anything but a double quote. -/
  | nqt
deriving DecidableEq

/-- Python `\s` whitespace (ASCII range, all inputs here are ASCII). -/
def isPySpace (c : Char) : Bool :=
  c = ' ' || c = Char.ofNat 9 || c = Char.ofNat 10 || c = Char.ofNat 11 ||
    c = Char.ofNat 12 || c = Char.ofNat 13

def classMem : RegexClass → Char → Bool
  | .nsp, c => !isPySpace c
  | .nrb, c => c ≠ ']'
  | .dgt, c => 48 ≤ c.toNat && c.toNat ≤ 57
  | .nqt, c => c ≠ dqChar

/-- Repetition kinds used by the patterns: `+`, `*`, and `{n}`. -/
inductive RegexRep where
  | plus
  | star
  | exact (n : Nat)
deriving DecidableEq

/-- One pattern item: a literal character, or a repeated character class,
optionally captured under a group name. -/
inductive SItem where
  | lit (c : Char)
  | grp (cl : RegexClass) (rep : RegexRep) (name : Option String)
deriving DecidableEq

/-- Length of the maximal run of characters of class `cl` at the head. -/
def classRunLen (cl : RegexClass) (s : List Char) : Nat :=
  (s.takeWhile (classMem cl)).length

/-- Record a capture in a successful match result. -/
def mergeCap (name : Option String) (chars : List Char) :
    Option (List (String × String)) → Option (List (String × String))
  | none => none
  | some caps =>
    match name with
    | some nm => some ((nm, String.mk chars) :: caps)
    | none => some caps

/-- Leftmost-greedy backtracking matcher for an item list against a prefix
of `s` (trailing characters permitted, as with `re.match`).  The fuel
argument only bounds the recursion; `items.length + 1` always suffices. -/
def reMatch : Nat → List SItem → List Char → Option (List (String × String))
  | 0, _, _ => none
  | _ + 1, [], _ => some []
  | fuel + 1, .lit c :: rest, s =>
    match s with
    | [] => none
    | x :: xs => if x = c then reMatch fuel rest xs else none
  | fuel + 1, .grp cl rep name :: rest, s =>
    let run := classRunLen cl s
    match rep with
    | .exact n =>
      if n ≤ run then mergeCap name (s.take n) (reMatch fuel rest (s.drop n))
      else none
    | .plus =>
      ((List.range (run + 1)).reverse.filter (fun k => 1 ≤ k)).findSome?
        (fun k => mergeCap name (s.take k) (reMatch fuel rest (s.drop k)))
    | .star =>
      ((List.range (run + 1)).reverse).findSome?
        (fun k => mergeCap name (s.take k) (reMatch fuel rest (s.drop k)))

/-- A pattern: a mandatory item list plus an optional trailing group
(`(?:...)?` at the end), tried greedily. -/
structure RePattern where
  items : List SItem
  optTail : List SItem
deriving DecidableEq

/-- Match a pattern against a line, `re.match` style. -/
def reMatchPattern (p : RePattern) (line : String) :
    Option (List (String × String)) :=
  let cs := line.toList
  let full := p.items ++ p.optTail
  if p.optTail.isEmpty then reMatch (p.items.length + 1) p.items cs
  else
    match reMatch (full.length + 1) full cs with
    | some caps => some caps
    | none => reMatch (p.items.length + 1) p.items cs

/-- Literal items for every character of a string. -/
def lits (s : String) : List SItem := s.toList.map SItem.lit

/-! ### The four `LOG_FORMATS` patterns (nginx_log_parser.py lines 33-41) -/

/-- The part shared by all formats from `\[(?P<timestamp>[^\]]+)\]` through
`(?P<body_bytes_sent>\d+)`: bracketed timestamp, quoted request line,
status (whose repetition differs between formats), bytes sent. -/
def reqCore (statusRep : RegexRep) : List SItem :=
  [SItem.lit '[', SItem.grp .nrb .plus (some "timestamp"), SItem.lit ']',
   SItem.lit ' ', SItem.lit dqChar,
   SItem.grp .nsp .plus (some "method"), SItem.lit ' ',
   SItem.grp .nsp .plus (some "path"), SItem.lit ' ',
   SItem.grp .nsp .plus (some "protocol"), SItem.lit dqChar, SItem.lit ' ',
   SItem.grp .dgt statusRep (some "status"), SItem.lit ' ',
   SItem.grp .dgt .plus (some "body_bytes_sent")]

/-- Trailing `"(?P<referer>[^"]*)" "(?P<user_agent>[^"]*)"`. -/
def refUaTail : List SItem :=
  [SItem.lit ' ', SItem.lit dqChar, SItem.grp .nqt .star (some "referer"),
   SItem.lit dqChar, SItem.lit ' ', SItem.lit dqChar,
   SItem.grp .nqt .star (some "user_agent"), SItem.lit dqChar]

/-- The `combined` format: `(?P<ip>\S+) \S+ \S+ [...] "..." status bytes
"referer" "user_agent"`. -/
def fmtCombined : RePattern :=
  { items := [SItem.grp .nsp .plus (some "ip"), SItem.lit ' ',
              SItem.grp .nsp .plus none, SItem.lit ' ',
              SItem.grp .nsp .plus none, SItem.lit ' '] ++
             reqCore .plus ++ refUaTail,
    optTail := [] }

/-- The `common` format: `combined` without referer/user-agent. -/
def fmtCommon : RePattern :=
  { items := [SItem.grp .nsp .plus (some "ip"), SItem.lit ' ',
              SItem.grp .nsp .plus none, SItem.lit ' ',
              SItem.grp .nsp .plus none, SItem.lit ' '] ++
             reqCore .plus,
    optTail := [] }

/-- The `dvwa_custom` format: literal `- -` between ip and timestamp. -/
def fmtDvwaCustom : RePattern :=
  { items := [SItem.grp .nsp .plus (some "ip")] ++ lits " - - " ++
             reqCore .plus ++ refUaTail,
    optTail := [] }

/-- The `dvwa_with_body` format: single dash, three-digit status, and an
optional trailing `request_body: "..."` field. -/
def fmtDvwaWithBody : RePattern :=
  { items := [SItem.grp .nsp .plus (some "ip")] ++ lits " - " ++
             reqCore (.exact 3),
    optTail := lits " request_body: " ++ [SItem.lit dqChar] ++
               [SItem.grp .nqt .star (some "request_body")] ++
               [SItem.lit dqChar] }

/-- `LOG_FORMATS` in dict insertion order. -/
def logFormats : List (String × RePattern) :=
  [("combined", fmtCombined), ("common", fmtCommon),
   ("dvwa_custom", fmtDvwaCustom), ("dvwa_with_body", fmtDvwaWithBody)]

/-- `detect_log_format` (nginx_log_parser.py lines 43-48): the first format
in `LOG_FORMATS` order whose pattern matches the line, if any. -/
def detectLogFormat (line : String) : Option (String × RePattern) :=
  logFormats.find? (fun p => (reMatchPattern p.2 line).isSome)

/-! ## nginx log parsing pipeline (src/dvwa/nginx_log_parser.py) -/

/-- Python `str.strip()` (ASCII whitespace). -/
def pyStrip (s : String) : String :=
  String.mk (((s.toList.dropWhile isPySpace).reverse.dropWhile
    isPySpace).reverse)

/-- Hex digit value, upper or lower case. -/
def hexVal (c : Char) : Option Nat :=
  if 48 ≤ c.toNat && c.toNat ≤ 57 then some (c.toNat - 48)
  else if 97 ≤ c.toNat && c.toNat ≤ 102 then some (c.toNat - 87)
  else if 65 ≤ c.toNat && c.toNat ≤ 70 then some (c.toNat - 55)
  else none

/-- Parse a `%hh` escape at the head of the list. -/
def pctByte : List Char → Option (Nat × List Char)
  | '%' :: a :: b :: rest =>
    match hexVal a, hexVal b with
    | some x, some y => some (16 * x + y, rest)
    | _, _ => none
  | _ => none

/-- The U+FFFD replacement character. -/
def replChar : Char := Char.ofNat 0xFFFD

/-- Whether a byte is a UTF-8 continuation byte. -/
def isCont (b : Nat) : Bool := 0x80 ≤ b && b < 0xC0

/-- UTF-8 decoding with replacement of malformed sequences (the behavior
of Python `bytes.decode('utf-8', errors='replace')` on the byte runs that
`unquote` produces); fueled for kernel evaluation. -/
def utf8Dec : Nat → List Nat → List Char
  | 0, _ => []
  | _, [] => []
  | fuel + 1, b :: rest =>
    if b < 0x80 then Char.ofNat b :: utf8Dec fuel rest
    else if b < 0xC2 then replChar :: utf8Dec fuel rest
    else if b < 0xE0 then
      match rest with
      | c :: r2 =>
        if isCont c then
          Char.ofNat ((b - 0xC0) * 64 + (c - 0x80)) :: utf8Dec fuel r2
        else replChar :: utf8Dec fuel rest
      | [] => [replChar]
    else if b < 0xF0 then
      match rest with
      | c :: d :: r2 =>
        if isCont c && isCont d then
          let n := (b - 0xE0) * 4096 + (c - 0x80) * 64 + (d - 0x80)
          if 0x800 ≤ n && !(0xD800 ≤ n && n ≤ 0xDFFF) then
            Char.ofNat n :: utf8Dec fuel r2
          else replChar :: utf8Dec fuel rest
        else replChar :: utf8Dec fuel rest
      | _ => [replChar]
    else if b < 0xF5 then
      match rest with
      | c :: d :: e :: r2 =>
        if isCont c && isCont d && isCont e then
          let n := (b - 0xF0) * 262144 + (c - 0x80) * 4096 +
            (d - 0x80) * 64 + (e - 0x80)
          if 0x10000 ≤ n && n < 0x110000 then Char.ofNat n :: utf8Dec fuel r2
          else replChar :: utf8Dec fuel rest
        else replChar :: utf8Dec fuel rest
      | _ => [replChar]
    else replChar :: utf8Dec fuel rest

/-- Collect a maximal run of `%hh` escapes as byte values. -/
def takePctBytes : Nat → List Char → List Nat × List Char
  | 0, s => ([], s)
  | fuel + 1, s =>
    match pctByte s with
    | some (b, rest) =>
      let r := takePctBytes fuel rest
      (b :: r.1, r.2)
    | none => ([], s)

/-- `urllib.parse.unquote`: `%hh` escape runs are decoded as UTF-8 (with
replacement on malformed bytes); all other characters pass through,
including a `%` not followed by two hex digits. -/
def pyUnquoteGo : Nat → List Char → List Char
  | 0, _ => []
  | _, [] => []
  | fuel + 1, s =>
    let r := takePctBytes (s.length + 1) s
    if r.1.isEmpty then
      match s with
      | [] => []
      | c :: cs => c :: pyUnquoteGo fuel cs
    else utf8Dec (r.1.length + 1) r.1 ++ pyUnquoteGo fuel r.2

def pyUnquote (s : String) : String :=
  String.mk (pyUnquoteGo (s.toList.length + 1) s.toList)

/-- Python `str.upper()` for ASCII input. -/
def asciiUpper (s : String) : String :=
  String.mk (s.toList.map (fun c =>
    if 97 ≤ c.toNat && c.toNat ≤ 122 then Char.ofNat (c.toNat - 32) else c))

/-- Zero-padded decimal rendering with at least `w` digits. -/
def padNum (w n : Nat) : String :=
  let digits := toString n
  String.mk (List.replicate (w - digits.length) '0') ++ digits

/-- Greedy parse of at most `maxD` leading digits (at least one). -/
def takeDigits (maxD : Nat) (s : List Char) : Option (Nat × List Char) :=
  let run := (s.takeWhile (fun c => 48 ≤ c.toNat && c.toNat ≤ 57)).take maxD
  if run.isEmpty then none
  else some (run.foldl (fun acc c => 10 * acc + (c.toNat - 48)) 0,
    s.drop run.length)

/-- Month abbreviations accepted by `%b`, matched case-insensitively. -/
def monthAbbrevs : List String :=
  ["Jan", "Feb", "Mar", "Apr", "May", "Jun",
   "Jul", "Aug", "Sep", "Oct", "Nov", "Dec"]

def asciiLower (s : String) : String :=
  String.mk (s.toList.map (fun c =>
    if 65 ≤ c.toNat && c.toNat ≤ 90 then Char.ofNat (c.toNat + 32) else c))

/-- Parse a `%b` month name at the head of the list (three letters). -/
def takeMonth (s : List Char) : Option (Nat × List Char) :=
  let word := String.mk (s.take 3)
  match (monthAbbrevs.map asciiLower).indexOf? (asciiLower word) with
  | some i => some (i + 1, s.drop 3)
  | none => none

/-- Days in a month of the proleptic Gregorian calendar
(`datetime` validation). -/
def daysInMonth (y m : Nat) : Nat :=
  if m = 2 then
    if y % 4 = 0 && (y % 100 ≠ 0 || y % 400 = 0) then 29 else 28
  else if m = 4 || m = 6 || m = 9 || m = 11 then 30
  else 31

/-- `datetime.strptime(s, "%d/%b/%Y:%H:%M:%S")`, as the tuple
`(year, month, day, hour, minute, second)`; `none` models the
`ValueError` path (unparsable text, range violation, or trailing
characters). -/
def strptimeNginx (s : String) : Option (Nat × Nat × Nat × Nat × Nat × Nat) :=
  match takeDigits 2 s.toList with
  | none => none
  | some (d, r1) =>
    match r1 with
    | '/' :: r2 =>
      match takeMonth r2 with
      | none => none
      | some (mo, r3) =>
        match r3 with
        | '/' :: r4 =>
          match takeDigits 4 r4 with
          | none => none
          | some (y, r5) =>
            match r5 with
            | ':' :: r6 =>
              match takeDigits 2 r6 with
              | none => none
              | some (h, r7) =>
                match r7 with
                | ':' :: r8 =>
                  match takeDigits 2 r8 with
                  | none => none
                  | some (mi, r9) =>
                    match r9 with
                    | ':' :: r10 =>
                      match takeDigits 2 r10 with
                      | none => none
                      | some (sec, r11) =>
                        if r11 = [] && 1 ≤ y && y ≤ 9999 && 1 ≤ d &&
                            d ≤ daysInMonth y mo && h ≤ 23 && mi ≤ 59 &&
                            sec ≤ 59 then
                          some (y, mo, d, h, mi, sec)
                        else none
                    | _ => none
                | _ => none
            | _ => none
        | _ => none
    | _ => none

/-- `parse_timestamp` (nginx_log_parser.py lines 50-57): parse the part of
the nginx timestamp before the timezone and return `datetime.isoformat()`;
on failure return the input unchanged. -/
def parseTimestamp (tsStr : String) : String :=
  let first := String.mk (tsStr.toList.takeWhile (fun c => c ≠ ' '))
  match strptimeNginx first with
  | some (y, mo, d, h, mi, sec) =>
    padNum 4 y ++ "-" ++ padNum 2 mo ++ "-" ++ padNum 2 d ++ "T" ++
      padNum 2 h ++ ":" ++ padNum 2 mi ++ ":" ++ padNum 2 sec
  | none => tsStr

/-- `extract_request_body` (nginx_log_parser.py lines 59-75): for GET and
POST, the URL-decoded query string after the first `?`, else empty. -/
def extractRequestBody (method path : String) : String :=
  let up := asciiUpper method
  if (up = "POST" || up = "GET") && path.toList.contains '?' then
    pyUnquote (String.mk ((path.toList.dropWhile (fun c => c ≠ '?')).drop 1))
  else ""

/-- `clean_path` (nginx_log_parser.py lines 77-81): strip the query string
and URL-decode. -/
def cleanPath (path : String) : String :=
  pyUnquote (String.mk (path.toList.takeWhile (fun c => c ≠ '?')))

/-- `generate_unique_id` (nginx_log_parser.py lines 83-86). -/
def generateUniqueId (ip timestamp method path : String) : String :=
  (md5Hex (ip ++ "_" ++ timestamp ++ "_" ++ method ++ "_" ++ path)).take 12

/-- One parsed row, named after the CSV columns of the parser output. -/
structure NginxRow where
  rowId : String
  bodyBytesSent : String
  ip : String
  method : String
  path : String
  protocol : String
  requestBody : String
  status : String
  timestamp : String
deriving DecidableEq, Repr

/-- The parser's `csv_headers` (nginx_log_parser.py lines 116-117). -/
def nginxCsvHeaders : List String :=
  ["_id", "body_bytes_sent", "ip", "request.method", "request.path",
   "request.protocol", "request_body", "status", "timestamp"]

/-- The `writer.writerow([...])` argument of `parse_log_file`
(lines 166-176): the row fields in the order they are written. -/
def nginxRowToCsv (r : NginxRow) : List String :=
  [r.rowId, r.bodyBytesSent, r.ip, r.method, r.path, r.protocol,
   r.requestBody, r.status, r.timestamp]

/-- Look up a capture group with a default (Python `data.get(k, d)`). -/
def capD (caps : List (String × String)) (k d : String) : String :=
  match caps.find? (fun p => p.1 = k) with
  | some p => p.2
  | none => d

/-- The per-line body of `parse_log_file`'s loop (lines 133-176): match the
line against the chosen pattern and build the output row, or fail. -/
def processLine (p : RePattern) (line : String) : Option NginxRow :=
  match reMatchPattern p line with
  | none => none
  | some caps =>
    let ip := pyStrip (capD caps "ip" "")
    let method := pyStrip (capD caps "method" "")
    let path := pyStrip (capD caps "path" "")
    let protocol := pyStrip (capD caps "protocol" "")
    let status := pyStrip (capD caps "status" "")
    let bodyBytes := pyStrip (capD caps "body_bytes_sent" "0")
    let timestamp := parseTimestamp (pyStrip (capD caps "timestamp" ""))
    let cleanReqPath := cleanPath path
    let requestBody :=
      match (caps.find? (fun q => q.1 = "request_body")).map Prod.snd with
      | some v => if v ≠ "" && v ≠ "-" then pyUnquote v
                  else extractRequestBody method path
      | none => extractRequestBody method path
    some { rowId := generateUniqueId ip timestamp method cleanReqPath,
           bodyBytesSent := bodyBytes, ip := ip, method := method,
           path := cleanReqPath, protocol := protocol,
           requestBody := requestBody, status := status,
           timestamp := timestamp }

/-- `parse_log_file` (lines 88-194) over the file's lines: the pattern is
chosen from the first line only (falling back to `combined` when no format
matches a non-blank first line); every line is then matched against that
single pattern; blank lines are skipped, non-matching lines increment the
error count.  `none` models the `return False` paths (blank or absent
first line). -/
def parseLogFile (lines : List String) : Option (List NginxRow × Nat) :=
  let firstLine := pyStrip (lines.headD "")
  if firstLine = "" then none
  else
    let p := match detectLogFormat firstLine with
      | some found => found.2
      | none => fmtCombined
    some (lines.foldl (fun acc line =>
      let l := pyStrip line
      if l = "" then acc
      else
        match processLine p l with
        | none => (acc.1, acc.2 + 1)
        | some row => (acc.1 ++ [row], acc.2)) ([], 0))

/-! ## CSV writing

The generators log through `csv.DictWriter(f, fieldnames=...)`: a row dict
is written as the list of its values in fieldname order. -/

/-- `csv.DictWriter.writerow`: the dict's values listed in fieldname
order (all row dicts in the sources carry exactly the fieldname keys). -/
def dictWriterRow (fieldnames : List String)
    (row : List (String × String)) : List String :=
  fieldnames.map (fun h => capD row h "")

/-- `json.dumps` of a string (double-quoted, quote/backslash escaped). -/
def jsonStr (s : String) : String :=
  let esc := s.toList.map (fun c =>
    if c = dqChar || c = backslashChar then [backslashChar, c] else [c])
  String.mk (dqChar :: esc.flatten ++ [dqChar])

/-- `json.dumps` of a flat dict of strings and integers (default
separators, insertion order). -/
def jsonDumps (d : List (String × PyVal)) : String :=
  "\x7b" ++
    String.intercalate ", " (d.map (fun p =>
      jsonStr p.1 ++ ": " ++
        (match p.2 with
         | .pstr s => jsonStr s
         | .pint n => toString n))) ++
  "\x7d"

/-! ## Juice Shop generator (src/juiceshop/juice-shop.py) -/

/-- `JuiceShopGenerator.csv_headers` (lines 66-69). -/
def juiceCsvHeaders : List String :=
  ["_id", "signature", "body_bytes_sent", "ip", "request.method",
   "request.path", "request.protocol", "request_body", "status",
   "timestamp"]

/-- The generator's mutable state: the in-memory signature set (modelled
as a duplicate-free list) and the CSV file contents (list of rows, header
first). -/
structure JsState where
  usedSignatures : List String
  csvFile : List (List String)
deriving DecidableEq, Repr

/-- Observable side effects of one `_make_api_request` call. -/
inductive JsEffect where
  | httpSend
  | csvWrite
deriving DecidableEq, Repr

/-- Outcome of the underlying `session.request` call: a response (status
code and content length), or a `requests.RequestException`. -/
inductive SendOutcome where
  | ok (status : Nat) (respLen : Nat)
  | exn
deriving DecidableEq, Repr

/-- `JuiceShopGenerator._initialize_csv` (lines 75-82): create the file
with a header row only if it does not already exist. -/
def jsInitializeCsv : Option (List (List String)) → List (List String)
  | none => [juiceCsvHeaders]
  | some rows => rows

/-- `JuiceShopGenerator._load_existing_signatures` (lines 85-105): read all
rows, return the set of non-empty `signature` fields; nothing is loaded if
the header lacks a `signature` column (or the file is empty, where
`DictReader.fieldnames` is `None` and the `in` test raises into the
`except` arm). -/
def jsLoadSignatures (file : List (List String)) : List String :=
  match file with
  | [] => []
  | header :: rows =>
    if !(header.contains "signature") then []
    else rows.foldl (fun acc row =>
      let v := capD (header.zip row) "signature" ""
      if v ≠ "" && !(acc.contains v) then acc ++ [v] else acc) []

/-- `JuiceShopGenerator.__init__` CSV setup (lines 71-73): create the file
if needed, then load prior signatures from it. -/
def jsInit (priorFile : Option (List (List String))) : JsState :=
  let f := jsInitializeCsv priorFile
  { usedSignatures := jsLoadSignatures f, csvFile := f }

/-- The `log_entry` dict of `_make_api_request` (lines 176-187), in
insertion order. -/
def juiceLogEntry (uid sig : String) (respLen : Nat) (method endpoint : String)
    (body : Option (List (String × PyVal))) (status : Nat) (ts : String) :
    List (String × String) :=
  [("_id", uid), ("signature", sig), ("body_bytes_sent", toString respLen),
   ("ip", "127.0.0.1"), ("request.method", method),
   ("request.path", endpoint), ("request.protocol", "HTTP/1.1"),
   ("request_body", match body with
     | some d => if d = [] then "N/A" else jsonDumps d
     | none => "N/A"),
   ("status", toString status), ("timestamp", ts)]

/-- `JuiceShopGenerator._make_api_request` (lines 159-194): compute the
signature, skip duplicates, reserve the signature, send; on success append
the log row; on `RequestException` remove the reserved signature again.
`uid` and `ts` stand for `str(uuid4())` and `datetime.now().isoformat()`.
Returns the optional response status together with the new state and the
effects performed. -/
def jsMakeApiRequest (st : JsState) (method endpoint : String)
    (body : Option (List (String × PyVal))) (uid ts : String)
    (outcome : SendOutcome) : Option Nat × JsState × List JsEffect :=
  let sig := juiceSig method endpoint body
  if st.usedSignatures.contains sig then (none, st, [])
  else
    let reserved := sig :: st.usedSignatures
    match outcome with
    | .ok status respLen =>
      let row := dictWriterRow juiceCsvHeaders
        (juiceLogEntry uid sig respLen method endpoint body status ts)
      (some status,
       { usedSignatures := reserved, csvFile := st.csvFile ++ [row] },
       [.httpSend, .csvWrite])
    | .exn =>
      (none,
       { usedSignatures := reserved.erase sig, csvFile := st.csvFile },
       [.httpSend])

/-- The external inputs of one `generate_traffic` loop iteration that
reaches `_make_api_request`. -/
structure JsReq where
  method : String
  endpoint : String
  body : Option (List (String × PyVal))
  uid : String
  ts : String
  outcome : SendOutcome
deriving Repr

/-- One `generate_traffic` iteration (lines 211-250): issue the request
and increment `generated_count` exactly when a response came back. -/
def jsLoopStep (st : JsState) (count : Nat) (r : JsReq) : JsState × Nat :=
  let res := jsMakeApiRequest st r.method r.endpoint r.body r.uid r.ts
    r.outcome
  (res.2.1, if res.1.isSome then count + 1 else count)

/-- Run a sequence of loop iterations from a state. -/
def jsRun (st : JsState) : List JsReq → JsState
  | [] => st
  | r :: rs => jsRun (jsLoopStep st 0 r).1 rs

/-! ## WebGoat benign generator (webgoat.py, active third variant) -/

/-- `WebGoatGenerator.csv_headers` (webgoat.py lines 585-588). -/
def webgoatCsvHeaders : List String :=
  ["_id", "signature", "body_bytes_sent", "ip", "request.method",
   "request.path", "request.protocol", "request_body", "status",
   "timestamp"]

/-- The WebGoat generator's signature set and CSV file. -/
structure WgState where
  usedSignatures : List String
  csvFile : List (List String)
deriving DecidableEq, Repr

/-- `WebGoatGenerator._make_request` (webgoat.py lines 637-689), with the
target dispatch (webgoat/webwolf base URL) abstracted away since it only
selects the session.  For GET the signature hashes a fresh `str(uuid4())`
nonce (line 650) and the logged body is `"N/A"`; otherwise the sorted body
repr is hashed.  Duplicates return `None` untouched; a `RequestException`
removes the reserved signature. -/
def wgMakeRequest (st : WgState) (method endpoint : String) (body : PyBody)
    (nonce uid ts : String) (outcome : SendOutcome) :
    Option Nat × WgState × List JsEffect :=
  let requestBodyStr :=
    if method = "GET" then "N/A" else webgoatBodyForSig body
  let sig := webgoatSig method endpoint body nonce
  if st.usedSignatures.contains sig then (none, st, [])
  else
    let reserved := sig :: st.usedSignatures
    match outcome with
    | .ok status respLen =>
      let row := dictWriterRow webgoatCsvHeaders
        [("_id", uid), ("signature", sig),
         ("body_bytes_sent", toString respLen), ("ip", "127.0.0.1"),
         ("request.method", method), ("request.path", endpoint),
         ("request.protocol", "HTTP/1.1"), ("request_body", requestBodyStr),
         ("status", toString status), ("timestamp", ts)]
      (some status,
       { usedSignatures := reserved, csvFile := st.csvFile ++ [row] },
       [.httpSend, .csvWrite])
    | .exn =>
      (none,
       { usedSignatures := reserved.erase sig, csvFile := st.csvFile },
       [.httpSend])

/-- `WebGoatGenerator._initialize_csv` (webgoat.py lines 592-597): create
the file with a header row only if it does not already exist. -/
def wgInitializeCsv : Option (List (List String)) → List (List String)
  | none => [webgoatCsvHeaders]
  | some rows => rows

/-- `WebGoatGenerator._load_existing_signatures` (webgoat.py lines
599-608): read all rows and collect the non-empty `signature` fields;
nothing is loaded when the header lacks a `signature` column (or the file
is empty, where `DictReader.fieldnames` is `None` and the `in` test
raises into the silent `except` arm). -/
def wgLoadSignatures (file : List (List String)) : List String :=
  match file with
  | [] => []
  | header :: rows =>
    if !(header.contains "signature") then []
    else rows.foldl (fun acc row =>
      let v := capD (header.zip row) "signature" ""
      if v ≠ "" && !(acc.contains v) then acc ++ [v] else acc) []

/-- `WebGoatGenerator.__init__` CSV setup (webgoat.py lines 589-590):
create the file if needed, then load prior signatures from it. -/
def wgInit (priorFile : Option (List (List String))) : WgState :=
  let f := wgInitializeCsv priorFile
  { usedSignatures := wgLoadSignatures f, csvFile := f }

/-- The external inputs of one `generate_traffic` loop iteration that
reaches `_make_request` (webgoat.py lines 713-754). -/
structure WgReq where
  method : String
  endpoint : String
  body : PyBody
  nonce : String
  uid : String
  ts : String
  outcome : SendOutcome
deriving Repr

/-- Run a sequence of `generate_traffic` iterations from a state
(webgoat.py lines 713-754; `generated_count` is tracked by the loop and
does not feed back into the state). -/
def wgRun (st : WgState) : List WgReq → WgState
  | [] => st
  | r :: rs =>
    wgRun (wgMakeRequest st r.method r.endpoint r.body r.nonce r.uid
      r.ts r.outcome).2.1 rs

/-! ## Malicious WebGoat generator (src/webgoatr/malacious.py) -/

/-- `WebGoatMaliciousGenerator.csv_headers` (lines 70-73). -/
def malCsvHeaders : List String :=
  ["_id", "signature", "body_bytes_sent", "ip", "request.method",
   "request.path", "request.protocol", "request_body", "status",
   "timestamp"]

structure MalState where
  usedSignatures : List String
  csvFile : List (List String)
deriving DecidableEq, Repr

/-- `WebGoatMaliciousGenerator._initialize_csv` (lines 76-80): the file is
opened with mode `"w"`, so whatever the backing file held before is
discarded and replaced by a header-only file ("Create a fresh file for
this run"). -/
def malInitializeCsv (_priorFile : Option (List (List String))) :
    List (List String) :=
  [malCsvHeaders]

/-- `WebGoatMaliciousGenerator.__init__` (lines 64-74): empty signature
set, freshly truncated CSV; no prior signatures are loaded. -/
def malInit (priorFile : Option (List (List String))) : MalState :=
  { usedSignatures := [], csvFile := malInitializeCsv priorFile }

/-- `WebGoatMaliciousGenerator._send_request` (lines 114-150): duplicate
signatures return `None`; otherwise the signature is added, the POST is
sent, and on success a row is logged and `True` returned.  On an exception
the function returns `False` **without** removing the signature from the
set.  `uid`, `fakeIp` and `ts` stand for `str(uuid4())`, `faker.ipv4()`
and `start_time.isoformat()`. -/
def malSendRequest (st : MalState) (endpoint payload : String)
    (uid fakeIp ts : String) (outcome : SendOutcome) :
    Option Bool × MalState × List JsEffect :=
  let sig := malSig endpoint payload
  if st.usedSignatures.contains sig then (none, st, [])
  else
    let reserved := sig :: st.usedSignatures
    match outcome with
    | .ok status respLen =>
      let row := dictWriterRow malCsvHeaders
        [("_id", uid), ("signature", sig),
         ("body_bytes_sent", toString respLen), ("ip", fakeIp),
         ("request.method", "POST"), ("request.path", endpoint),
         ("request.protocol", "HTTP/1.1"),
         ("request_body", "payload=" ++ payload),
         ("status", toString status), ("timestamp", ts)]
      (some true,
       { usedSignatures := reserved, csvFile := st.csvFile ++ [row] },
       [.httpSend, .csvWrite])
    | .exn => (some false, { st with usedSignatures := reserved },
       [.httpSend])

/-! ## DVWA generator (dvwa_crawler.py) -/

/-- `HTTP_METHODS` (dvwa_crawler.py line 53). -/
def httpMethods : List String :=
  ["GET", "POST", "PUT", "DELETE", "PATCH", "HEAD", "OPTIONS"]

/-- The header row the DVWA generator writes when creating its CSV
(dvwa_crawler.py line 342). -/
def dvwaCsvHeaderRow : List String :=
  ["timestamp", "session_id", "method", "url", "params_or_data", "status",
   "unique_token", "content_type", "request_size", "response_size",
   "headers_hash"]

/-- `DVWAGenerator.__init__` CSV setup (lines 339-342): write the header
only when the file does not exist. -/
def dvwaInitCsv : Option (List (List String)) → List (List String)
  | none => [dvwaCsvHeaderRow]
  | some rows => rows

/-- The `dvwa_modules` table (lines 506-601): module path and allowed
method list (the payload-constructor lambdas draw random values and are
supplied through the environment). -/
def dvwaModules : List (String × List String) :=
  [("vulnerabilities/sqli/", ["GET", "POST"]),
   ("vulnerabilities/sqli_blind/", ["GET", "POST"]),
   ("vulnerabilities/xss_r/", ["GET"]),
   ("vulnerabilities/xss_s/", ["GET", "POST"]),
   ("vulnerabilities/xss_d/", ["GET"]),
   ("vulnerabilities/exec/", ["GET", "POST"]),
   ("vulnerabilities/csrf/", ["GET", "POST"]),
   ("vulnerabilities/fi/", ["GET"]),
   ("vulnerabilities/upload/", ["GET", "POST"]),
   ("vulnerabilities/captcha/", ["GET", "POST"]),
   ("vulnerabilities/weak_id/", ["GET"]),
   ("vulnerabilities/brute/", ["GET", "POST"]),
   ("vulnerabilities/authbypass/", ["GET", "POST"]),
   ("vulnerabilities/bac/", ["GET"]),
   ("vulnerabilities/csp/", ["GET"]),
   ("vulnerabilities/javascript/", ["GET", "POST"]),
   ("vulnerabilities/open_redirect/", ["GET"]),
   ("vulnerabilities/api/", ["GET", "POST", "PUT", "DELETE"])]

/-- The `common_pages` table (lines 604-630). -/
def dvwaCommonPages : List (String × List String) :=
  [("index.php", ["GET"]),
   ("security.php", ["GET", "POST"]),
   ("phpinfo.php", ["GET"]),
   ("about.php", ["GET"]),
   ("instructions.php", ["GET"])]

/-- The endpoint chosen by one loop iteration: a vulnerability module, a
common page, or a discovered URL (lines 641-665). -/
inductive DvwaEndpoint where
  | module (i : Nat)
  | common (i : Nat)
  | discovered
deriving DecidableEq, Repr

/-- `endpoint_info["methods"]` of the chosen endpoint; discovered pages
are assumed GET-only (line 659). -/
def endpointMethods : DvwaEndpoint → List String
  | .module i => (dvwaModules.getD (i % dvwaModules.length) ("", ["GET"])).2
  | .common i =>
    (dvwaCommonPages.getD (i % dvwaCommonPages.length) ("", ["GET"])).2
  | .discovered => ["GET"]

/-- Python substring membership `needle in hay`. -/
def substrContains (needle hay : String) : Bool :=
  let n := needle.toList
  let h := hay.toList
  (List.range (h.length + 1)).any (fun i => n.isPrefixOf (h.drop i))

/-- The loop state of `generate_request_variations` (lines 632-637):
requests sent, per-method counters, the signature set, and the CSV file. -/
structure DvwaState where
  sent : Nat
  sentBy : String → Nat
  usedSignatures : List String
  csvFile : List (List String)

/-- `sent_by_method[method] += 1`. -/
def bumpBy (f : String → Nat) (m : String) : String → Nat :=
  fun x => if x = m then f x + 1 else f x

/-- The randomized/external inputs consumed by one loop iteration:
the sampled endpoint, the `random.choice` index for the method, the
synthesized url/params/body/content-type/headers, the auth-refresh result,
the transport outcome, and the wall-clock/size values used in the log
row. -/
structure DvwaEnv where
  endpoint : DvwaEndpoint
  pick : Nat
  url : String
  params : List (String × PyVal)
  requestData : PyBody
  contentType : String
  headers : List (String × String)
  authOk : Bool
  outcome : SendOutcome
  logTime : Nat
  requestSize : Nat
  respUrl : String
  logData : String

/-- Result of one loop iteration: whether the `break` at line 675 fired,
the successor state, and the method of the HTTP request actually issued
(if the iteration reached the send). -/
structure DvwaStepOut where
  broke : Bool
  state : DvwaState
  sentRequest : Option String

/-- Method selection of one loop iteration (lines 667-677): filter the
endpoint's methods by remaining quota; if that is empty, fall back to any
of `HTTP_METHODS` with remaining quota; if that is empty too the loop
breaks (`none`); otherwise `random.choice` (the `pick` index) from the
available list. -/
def dvwaChooseMethod (counts sentBy : String → Nat) (epMs : List String)
    (pick : Nat) : Option String :=
  let avail0 := epMs.filter (fun m => sentBy m < counts m)
  if avail0.isEmpty then
    let fallback := httpMethods.filter (fun m => sentBy m < counts m)
    if fallback.isEmpty then none
    else some (fallback.getD (pick % fallback.length) "GET")
  else some (avail0.getD (pick % avail0.length) "GET")

/-- One iteration of the `while sent < count` body (lines 639-901):
select a method by quota (breaking when none remains), compute the
signature, resample silently on duplicates; reserve the signature, skip
if authentication fails; send, leaving the counters unchanged on a
`RequestException` (the signature stays reserved, lines 899-901); on
success log a row and bump `sent` and `sent_by_method[method]`. -/
def dvwaLoopStep (nSessions : Nat) (counts : String → Nat)
    (st : DvwaState) (env : DvwaEnv) : DvwaStepOut :=
  match dvwaChooseMethod counts st.sentBy (endpointMethods env.endpoint)
    env.pick with
  | none => ⟨true, st, none⟩
  | some method =>
    let sig := dvwaSig method env.url env.params env.requestData
      env.contentType env.headers
    if st.usedSignatures.contains sig then ⟨false, st, none⟩
    else
      let st1 := { st with usedSignatures := sig :: st.usedSignatures }
      let needsAuth := substrContains "vulnerabilities/" env.url ||
        substrContains "security.php" env.url ||
        substrContains "index.php" env.url
      if needsAuth && !env.authOk then ⟨false, st1, none⟩
      else
        match env.outcome with
        | .exn => ⟨false, st1, some method⟩
        | .ok status respLen =>
          let headersHash := (md5Hex (pyReprPairList (pySortedItems
            (env.headers.map (fun p => (p.1, PyVal.pstr p.2)))))).take 8
          let row := [toString env.logTime,
            toString (st.sent % nSessions), method, env.respUrl,
            env.logData, toString status, sig.take 8, env.contentType,
            toString env.requestSize, toString respLen, headersHash]
          ⟨false,
           { sent := st.sent + 1, sentBy := bumpBy st.sentBy method,
             usedSignatures := st1.usedSignatures,
             csvFile := st.csvFile ++ [row] },
           some method⟩

/-- The initial loop state (lines 632-637 with the CSV header from
`__init__`). -/
def dvwaInitState : DvwaState :=
  { sent := 0, sentBy := fun _ => 0, usedSignatures := [],
    csvFile := [dvwaCsvHeaderRow] }

/-- Run the `while sent < count` loop over a (finite) supply of iteration
environments, honoring both the loop condition and the `break`. -/
def dvwaRun (nSessions count : Nat) (counts : String → Nat)
    (st : DvwaState) : List DvwaEnv → DvwaState
  | [] => st
  | env :: envs =>
    if st.sent < count then
      let r := dvwaLoopStep nSessions counts st env
      if r.broke then r.state else dvwaRun nSessions count counts r.state envs
    else st

/-! ## DVWA session authentication (dvwa_crawler.py lines 399-478) -/

/-- `AUTH_TTL_SECONDS` (line 50). -/
def authTtlSeconds : Int := 600

/-- Per-session authentication state: membership of
`authenticated_sessions` and `last_auth_time` (default 0). -/
structure AuthState where
  isAuth : Bool
  lastAuth : Int
deriving DecidableEq, Repr

/-- `DVWAGenerator._authenticate_session` (lines 399-470), with the
network login exchange summarized by the `loginOk` oracle.  When not
forced, an authenticated session inside its TTL returns `True` with no
network activity; otherwise one full login sequence runs (counted in the
third component), marking the session authenticated on success and
leaving the state unchanged on failure. -/
def authenticateSession (st : AuthState) (now : Int) (force : Bool)
    (loginOk : Bool) : Bool × AuthState × Nat :=
  if !force && st.isAuth && now - st.lastAuth < authTtlSeconds then
    (true, st, 0)
  else if loginOk then (true, { isAuth := true, lastAuth := now }, 1)
  else (false, st, 1)

/-- `DVWAGenerator._maybe_refresh_auth` (lines 472-478): authenticate if
never authenticated; force re-authentication if the TTL elapsed; otherwise
return `True` immediately. -/
def maybeRefreshAuth (st : AuthState) (now : Int) (loginOk : Bool) :
    Bool × AuthState × Nat :=
  if !st.isAuth then authenticateSession st now false loginOk
  else if now - st.lastAuth ≥ authTtlSeconds then
    authenticateSession st now true loginOk
  else (true, st, 0)

/-! ## Theorems for the specification claims -/

set_option maxRecDepth 1000000

/-- C5: parsing the single nginx log line
`127.0.0.1 - - [10/Oct/2025:14:30:45 +0000] "GET /a/b?x=1 HTTP/1.1" 200 512 "-" "UA"`
produces exactly one output row, with no errors, whose method is `GET`,
path `/a/b`, request body `x=1`, status `200`, bytes sent `512`, and
timestamp `2025-10-10T14:30:45` (the row id being the md5-derived unique
id the parser computes). -/
theorem c5_log_parse_round_trip :
    parseLogFile
      ["127.0.0.1 - - [10/Oct/2025:14:30:45 +0000] \"GET /a/b?x=1 HTTP/1.1\" 200 512 \"-\" \"UA\""] =
    some ([{ rowId := "987c1f35015b", bodyBytesSent := "512",
             ip := "127.0.0.1", method := "GET", path := "/a/b",
             protocol := "HTTP/1.1", requestBody := "x=1", status := "200",
             timestamp := "2025-10-10T14:30:45" }], 0) := by
  decide

/-- C9: the parser picks its regex once, from the first line only, trying
the formats in the fixed order combined, common, dvwa_custom,
dvwa_with_body and taking the first match (the first line below matches
combined, common and dvwa_custom, and combined wins); if nothing matches
the first line it falls back to combined; that single pattern is then
applied to every line, so a second line that only the dvwa_with_body
format matches is counted as an error and skipped. -/
theorem c9_format_detected_once_from_first_line :
    (detectLogFormat
      "127.0.0.1 - - [10/Oct/2025:14:30:45 +0000] \"GET /a/b?x=1 HTTP/1.1\" 200 512 \"-\" \"UA\"").map
        Prod.fst = some "combined" ∧
    (reMatchPattern fmtCommon
      "127.0.0.1 - - [10/Oct/2025:14:30:45 +0000] \"GET /a/b?x=1 HTTP/1.1\" 200 512 \"-\" \"UA\"").isSome = true ∧
    (reMatchPattern fmtDvwaCustom
      "127.0.0.1 - - [10/Oct/2025:14:30:45 +0000] \"GET /a/b?x=1 HTTP/1.1\" 200 512 \"-\" \"UA\"").isSome = true ∧
    (detectLogFormat
      "10.0.0.5 - [11/Oct/2025:08:01:02 +0530] \"POST /DVWA/login.php HTTP/1.1\" 302 154 request_body: \"u=admin\"").map
        Prod.fst = some "dvwa_with_body" ∧
    (reMatchPattern fmtCombined
      "10.0.0.5 - [11/Oct/2025:08:01:02 +0530] \"POST /DVWA/login.php HTTP/1.1\" 302 154 request_body: \"u=admin\"").isSome = false ∧
    (parseLogFile
      ["127.0.0.1 - - [10/Oct/2025:14:30:45 +0000] \"GET /a/b?x=1 HTTP/1.1\" 200 512 \"-\" \"UA\"",
       "10.0.0.5 - [11/Oct/2025:08:01:02 +0530] \"POST /DVWA/login.php HTTP/1.1\" 302 154 request_body: \"u=admin\""]).map
        (fun r => (r.1.length, r.2)) = some (1, 1) ∧
    detectLogFormat "no format matches this line" = none ∧
    (parseLogFile
      ["no format matches this line",
       "127.0.0.1 - - [10/Oct/2025:14:30:45 +0000] \"GET /a/b?x=1 HTTP/1.1\" 200 512 \"-\" \"UA\""]).map
        (fun r => (r.1.length, r.2)) = some (1, 1) := by
  decide

/-- C1: on the active WebGoat generator a GET request's signature hashes a
fresh `uuid4` nonce, so two synthesized requests with identical method,
endpoint, parameter set and content type get different digests — the
signature is not a pure function of those declared inputs.  For non-GET
methods the nonce is ignored and the digest is determined by method,
endpoint and body alone. -/
theorem c1_webgoat_get_signature_not_deterministic :
    webgoatSig "GET" "mail" PyBody.noneB "0c9a2f31-11aa" ≠
      webgoatSig "GET" "mail" PyBody.noneB "7e5d0b42-22bb" ∧
    (∀ endpoint body nonce1 nonce2,
      webgoatSig "POST" endpoint body nonce1 =
        webgoatSig "POST" endpoint body nonce2) := by
  refine ⟨by decide, fun endpoint body nonce1 nonce2 => rfl⟩

/-- C4 counterexample: the DVWA engine's freshly created ledger CSV has as
its first row an eleven-column header (timestamp, session_id, method, url,
params_or_data, status, unique_token, content_type, request_size,
response_size, headers_hash) that names neither the claimed column list
with the optional `signature` column nor the one without it. -/
theorem c4_dvwa_ledger_header_differs :
    dvwaInitCsv none = [dvwaCsvHeaderRow] ∧
    dvwaCsvHeaderRow ≠ juiceCsvHeaders ∧
    dvwaCsvHeaderRow ≠ nginxCsvHeaders := by
  decide

/-- C4 (amended): the Juice Shop, WebGoat and malicious-WebGoat ledgers
all use the header `_id, signature, body_bytes_sent, ip, request.method,
request.path, request.protocol, request_body, status, timestamp` in that
order, the nginx parser output uses the same header without `signature`,
and every appended data row lists its fields in exactly that header
order; the DVWA engine alone uses its own different column set. -/
theorem c4_ledger_headers_and_row_order :
    juiceCsvHeaders =
      ["_id", "signature", "body_bytes_sent", "ip", "request.method",
       "request.path", "request.protocol", "request_body", "status",
       "timestamp"] ∧
    malCsvHeaders = juiceCsvHeaders ∧
    webgoatCsvHeaders = juiceCsvHeaders ∧
    nginxCsvHeaders =
      ["_id", "body_bytes_sent", "ip", "request.method", "request.path",
       "request.protocol", "request_body", "status", "timestamp"] ∧
    (∀ uid sig respLen method endpoint body status ts,
      dictWriterRow juiceCsvHeaders
        (juiceLogEntry uid sig respLen method endpoint body status ts) =
      [uid, sig, toString respLen, "127.0.0.1", method, endpoint,
       "HTTP/1.1",
       (match body with
        | some d => if d = [] then "N/A" else jsonDumps d
        | none => "N/A"),
       toString status, ts]) ∧
    (∀ r : NginxRow, nginxRowToCsv r =
      [r.rowId, r.bodyBytesSent, r.ip, r.method, r.path, r.protocol,
       r.requestBody, r.status, r.timestamp]) := by
  refine ⟨rfl, rfl, rfl, rfl, ?_, fun r => rfl⟩
  intro uid sig respLen method endpoint body status ts
  rfl

/-- C10: a request whose signature is already in the in-memory set is a
complete no-op in both engines with persistent dedupe: the call returns
`None`, performs no HTTP send and no CSV write, and leaves the signature
set and the CSV file exactly as they were. -/
theorem c10_duplicate_signature_is_noop :
    (∀ st method endpoint body uid ts outcome,
      st.usedSignatures.contains (juiceSig method endpoint body) = true →
        jsMakeApiRequest st method endpoint body uid ts outcome =
          (none, st, [])) ∧
    (∀ st method endpoint body nonce uid ts outcome,
      st.usedSignatures.contains (webgoatSig method endpoint body nonce) =
          true →
        wgMakeRequest st method endpoint body nonce uid ts outcome =
          (none, st, [])) := by
  constructor
  · intro st method endpoint body uid ts outcome h
    simp only [jsMakeApiRequest]
    rw [h]
    rfl
  · intro st method endpoint body nonce uid ts outcome h
    simp only [wgMakeRequest]
    rw [h]
    rfl

/-- C10 witness: a concrete duplicate call returns `None` with no effects
and an unchanged state. -/
theorem c10_duplicate_signature_is_noop_witness :
    jsMakeApiRequest
      { usedSignatures := [juiceSig "GET" "api/Challenges/" none],
        csvFile := [juiceCsvHeaders] }
      "GET" "api/Challenges/" none "u1" "t1" (SendOutcome.ok 200 7) =
    (none,
     { usedSignatures := [juiceSig "GET" "api/Challenges/" none],
       csvFile := [juiceCsvHeaders] }, []) :=
  c10_duplicate_signature_is_noop.1
    { usedSignatures := [juiceSig "GET" "api/Challenges/" none],
      csvFile := [juiceCsvHeaders] }
    "GET" "api/Challenges/" none "u1" "t1" (SendOutcome.ok 200 7)
    (by decide)

/-- One `_make_api_request` call never loses a signature that was already
in the set: duplicates leave it unchanged, successes add one, and a failed
send removes exactly the signature it had just reserved. -/
theorem jsStep_mono (st : JsState) (method endpoint : String)
    (body : Option (List (String × PyVal))) (uid ts : String)
    (outcome : SendOutcome) :
    ∀ x ∈ st.usedSignatures,
      x ∈ (jsMakeApiRequest st method endpoint body uid ts
        outcome).2.1.usedSignatures := by
  intro x hx
  simp only [jsMakeApiRequest]
  split
  · exact hx
  · cases outcome with
    | ok status respLen => exact List.mem_cons_of_mem _ hx
    | exn => simpa [List.erase_cons_head] using hx

/-- Membership in the signature set survives any run of loop iterations. -/
theorem jsRun_mono (reqs : List JsReq) :
    ∀ st x, x ∈ st.usedSignatures → x ∈ (jsRun st reqs).usedSignatures := by
  induction reqs with
  | nil => intro st x hx; exact hx
  | cons r rs ih =>
    intro st x hx
    exact ih _ x (jsStep_mono st r.method r.endpoint r.body r.uid r.ts
      r.outcome x hx)

/-- One WebGoat `_make_request` call never loses a signature that was
already in the set. -/
theorem wgStep_mono (st : WgState) (method endpoint : String)
    (body : PyBody) (nonce uid ts : String) (outcome : SendOutcome) :
    ∀ x ∈ st.usedSignatures,
      x ∈ (wgMakeRequest st method endpoint body nonce uid ts
        outcome).2.1.usedSignatures := by
  intro x hx
  simp only [wgMakeRequest]
  split
  · exact hx
  · cases outcome with
    | ok status respLen => exact List.mem_cons_of_mem _ hx
    | exn => simpa [List.erase_cons_head] using hx

/-- Membership in the WebGoat signature set survives any run of loop
iterations. -/
theorem wgRun_mono (reqs : List WgReq) :
    ∀ st x, x ∈ st.usedSignatures → x ∈ (wgRun st reqs).usedSignatures := by
  induction reqs with
  | nil => intro st x hx; exact hx
  | cons r rs ih =>
    intro st x hx
    exact ih _ x (wgStep_mono st r.method r.endpoint r.body r.nonce
      r.uid r.ts r.outcome x hx)

/-- One DVWA loop iteration never loses a signature that was already in
the set (a duplicate leaves it unchanged; every other path that reaches
the signature check only adds the freshly reserved signature). -/
theorem dvwaStep_mono (nSessions : Nat) (counts : String → Nat)
    (st : DvwaState) (env : DvwaEnv) :
    ∀ x ∈ st.usedSignatures,
      x ∈ (dvwaLoopStep nSessions counts st
        env).state.usedSignatures := by
  intro x hx
  cases hC : dvwaChooseMethod counts st.sentBy
    (endpointMethods env.endpoint) env.pick with
  | none => simpa [dvwaLoopStep, hC] using hx
  | some method =>
    simp only [dvwaLoopStep, hC]
    split_ifs
    · exact hx
    · exact List.mem_cons_of_mem _ hx
    · cases env.outcome with
      | exn => exact List.mem_cons_of_mem _ hx
      | ok status respLen => exact List.mem_cons_of_mem _ hx

/-- Membership in the DVWA signature set survives any run of the Driver
loop. -/
theorem dvwaRun_mono (nSessions count : Nat) (counts : String → Nat)
    (envs : List DvwaEnv) :
    ∀ st x, x ∈ st.usedSignatures →
      x ∈ (dvwaRun nSessions count counts st envs).usedSignatures := by
  induction envs with
  | nil => intro st x hx; exact hx
  | cons e es ih =>
    intro st x hx
    by_cases hlt : st.sent < count
    · by_cases hb : (dvwaLoopStep nSessions counts st e).broke = true
      · simpa [dvwaRun, if_pos hlt, hb] using
          dvwaStep_mono nSessions counts st e x hx
      · simp only [dvwaRun, if_pos hlt, hb, if_false]
        exact ih _ x (dvwaStep_mono nSessions counts st e x hx)
    · simpa [dvwaRun, if_neg hlt] using hx

/-- C2 counterexample: the malicious-WebGoat engine opens its ledger CSV
with mode `w` at startup, truncating it: after initialization against a
prior file holding a logged row with signature `deadbeef`, the file is
reduced to the header and the in-memory set is empty, so it is not a
superset of the signatures logged in prior runs. -/
theorem c2_malacious_truncates_and_loads_nothing :
    (malInit (some [malCsvHeaders,
      ["id1", "deadbeef", "10", "1.2.3.4", "POST", "p", "HTTP/1.1",
       "payload=x", "200", "t"]])).csvFile = [malCsvHeaders] ∧
    (malInit (some [malCsvHeaders,
      ["id1", "deadbeef", "10", "1.2.3.4", "POST", "p", "HTTP/1.1",
       "payload=x", "200", "t"]])).usedSignatures.contains "deadbeef" =
      false := by
  decide

/-- C2 (amended): within any run of any engine the signature set never
loses an element across a request call or loop iteration (a failed send
removes only the signature reserved by that same call, restoring the
previous set) — proved per call for the Juice Shop, WebGoat,
malicious-WebGoat and DVWA engines and along whole runs of each loop;
for the Juice Shop and WebGoat engines, which open the ledger in append
mode and load its history at startup, every signature loaded from the
prior ledger therefore stays in the set for the rest of the run; the
malicious-WebGoat engine instead truncates its CSV at startup and loads
no history, starting from the empty set. -/
theorem c2_signature_set_superset :
    (∀ st method endpoint body uid ts outcome x,
      x ∈ st.usedSignatures →
        x ∈ (jsMakeApiRequest st method endpoint body uid ts
          outcome).2.1.usedSignatures) ∧
    (∀ priorFile reqs x,
      x ∈ (jsInit priorFile).usedSignatures →
        x ∈ (jsRun (jsInit priorFile) reqs).usedSignatures) ∧
    (∀ st method endpoint body nonce uid ts outcome x,
      x ∈ st.usedSignatures →
        x ∈ (wgMakeRequest st method endpoint body nonce uid ts
          outcome).2.1.usedSignatures) ∧
    (∀ priorFile reqs x,
      x ∈ (wgInit priorFile).usedSignatures →
        x ∈ (wgRun (wgInit priorFile) reqs).usedSignatures) ∧
    (∀ nSessions counts st env x,
      x ∈ st.usedSignatures →
        x ∈ (dvwaLoopStep nSessions counts st
          env).state.usedSignatures) ∧
    (∀ nSessions count counts st envs x,
      x ∈ st.usedSignatures →
        x ∈ (dvwaRun nSessions count counts st envs).usedSignatures) ∧
    (∀ st endpoint payload uid fakeIp ts outcome x,
      x ∈ st.usedSignatures →
        x ∈ (malSendRequest st endpoint payload uid fakeIp ts
          outcome).2.1.usedSignatures) ∧
    (∀ priorFile, malInit priorFile =
      { usedSignatures := [], csvFile := [malCsvHeaders] }) := by
  refine ⟨fun st m e b u t o x hx => jsStep_mono st m e b u t o x hx,
    fun priorFile reqs x hx => jsRun_mono reqs _ x hx,
    fun st m e b n u t o x hx => wgStep_mono st m e b n u t o x hx,
    fun priorFile reqs x hx => wgRun_mono reqs _ x hx,
    fun nS counts st env x hx => dvwaStep_mono nS counts st env x hx,
    fun nS count counts st envs x hx =>
      dvwaRun_mono nS count counts envs st x hx,
    ?_, fun priorFile => rfl⟩
  intro st endpoint payload uid fakeIp ts outcome x hx
  simp only [malSendRequest]
  split
  · exact hx
  · cases outcome with
    | ok status respLen => exact List.mem_cons_of_mem _ hx
    | exn => exact List.mem_cons_of_mem _ hx

/-- C2 witness: a signature loaded from a prior Juice Shop ledger is still
in the set after a run that includes a failed send. -/
theorem c2_signature_set_superset_witness :
    "deadbeef" ∈ (jsRun (jsInit (some [juiceCsvHeaders,
      ["id0", "deadbeef", "5", "127.0.0.1", "GET", "a", "HTTP/1.1",
       "N/A", "200", "t0"]]))
      [{ method := "GET", endpoint := "api/Challenges/", body := none,
         uid := "u1", ts := "t1",
         outcome := SendOutcome.exn }]).usedSignatures :=
  c2_signature_set_superset.2.1
    (some [juiceCsvHeaders,
      ["id0", "deadbeef", "5", "127.0.0.1", "GET", "a", "HTTP/1.1",
       "N/A", "200", "t0"]])
    [{ method := "GET", endpoint := "api/Challenges/", body := none,
       uid := "u1", ts := "t1", outcome := SendOutcome.exn }]
    "deadbeef" (by decide)

/-- C3 counterexample: in the malicious-WebGoat engine a request attempt
that ends in a transport error does **not** release the reserved
signature: after a failed send the signature is still in the set, and a
later attempt with the same content is rejected as a duplicate
(returning `None`) instead of being admitted. -/
theorem c3_malacious_keeps_signature_after_transport_error :
    (malSendRequest (malInit none) "SqlInjection/attack8" "x" "u1"
      "1.2.3.4" "t1" SendOutcome.exn).1 = some false ∧
    (malSendRequest (malInit none) "SqlInjection/attack8" "x" "u1"
      "1.2.3.4" "t1"
      SendOutcome.exn).2.1.usedSignatures.contains
        (malSig "SqlInjection/attack8" "x") = true ∧
    (malSendRequest
      (malSendRequest (malInit none) "SqlInjection/attack8" "x" "u1"
        "1.2.3.4" "t1" SendOutcome.exn).2.1
      "SqlInjection/attack8" "x" "u2" "1.2.3.4" "t2"
      (SendOutcome.ok 200 10)).1 = none := by
  decide

/-- C3 (amended): on a transport error the Juice Shop and WebGoat engines
release the reserved signature — the call returns `None` with the state
restored exactly, so the same content can be attempted again — and a
failed iteration never increments the sent counter; the DVWA and
malicious-WebGoat engines also leave their counters untouched, but keep
the signature reserved (DVWA's set grows by the reserved signature, and
the malicious engine's set still contains it), so an identical later
attempt is rejected there. -/
theorem c3_transport_error_releases_signature :
    (∀ st method endpoint body uid ts,
      jsMakeApiRequest st method endpoint body uid ts SendOutcome.exn =
        (none, st,
         if st.usedSignatures.contains (juiceSig method endpoint body)
         then [] else [JsEffect.httpSend])) ∧
    (∀ st method endpoint body nonce uid ts,
      wgMakeRequest st method endpoint body nonce uid ts
        SendOutcome.exn =
        (none, st,
         if st.usedSignatures.contains (webgoatSig method endpoint body
           nonce) then [] else [JsEffect.httpSend])) ∧
    (∀ st count r, r.outcome = SendOutcome.exn →
      (jsLoopStep st count r).2 = count) ∧
    (∀ st endpoint payload uid fakeIp ts,
      (malSendRequest st endpoint payload uid fakeIp ts
        SendOutcome.exn).1 ≠ some true ∧
      (malSendRequest st endpoint payload uid fakeIp ts
        SendOutcome.exn).2.1.usedSignatures.contains
          (malSig endpoint payload) = true) ∧
    (∀ nSessions counts st env, env.outcome = SendOutcome.exn →
      (dvwaLoopStep nSessions counts st env).state.sent = st.sent ∧
      (∀ m, (dvwaLoopStep nSessions counts st env).state.sentBy m =
        st.sentBy m) ∧
      ((dvwaLoopStep nSessions counts st env).sentRequest.isSome = true →
        (dvwaLoopStep nSessions counts st
          env).state.usedSignatures.length =
          st.usedSignatures.length + 1)) := by
  refine ⟨?_, ?_, ?_, ?_, ?_⟩
  · intro st method endpoint body uid ts
    simp only [jsMakeApiRequest]
    split
    · simp_all
    · simp [List.erase_cons_head]
  · intro st method endpoint body nonce uid ts
    simp only [wgMakeRequest]
    split
    · simp_all
    · simp [List.erase_cons_head]
  · intro st count r h
    simp [jsLoopStep, jsMakeApiRequest, h]
    split <;> simp
  · intro st endpoint payload uid fakeIp ts
    simp only [malSendRequest]
    constructor
    · split <;> simp
    · split
      · simp_all
      · simp
  · intro nSessions counts st env h
    refine ⟨?_, ?_, ?_⟩
    · cases hC : dvwaChooseMethod counts st.sentBy
        (endpointMethods env.endpoint) env.pick with
      | none => simp [dvwaLoopStep, hC]
      | some method =>
        simp only [dvwaLoopStep, hC, h]
        split_ifs <;> simp
    · intro m
      cases hC : dvwaChooseMethod counts st.sentBy
        (endpointMethods env.endpoint) env.pick with
      | none => simp [dvwaLoopStep, hC]
      | some method =>
        simp only [dvwaLoopStep, hC, h]
        split_ifs <;> simp
    · cases hC : dvwaChooseMethod counts st.sentBy
        (endpointMethods env.endpoint) env.pick with
      | none => simp [dvwaLoopStep, hC]
      | some method =>
        simp only [dvwaLoopStep, hC, h]
        split_ifs <;> simp

/-- C3 witness: a concrete Juice Shop transport failure returns `None`
with the signature released, and the iteration leaves the counter at its
previous value. -/
theorem c3_transport_error_releases_signature_witness :
    (jsLoopStep { usedSignatures := [], csvFile := [juiceCsvHeaders] } 4
      { method := "GET", endpoint := "api/Challenges/", body := none,
        uid := "u1", ts := "t1", outcome := SendOutcome.exn }).2 = 4 :=
  c3_transport_error_releases_signature.2.2.1
    { usedSignatures := [], csvFile := [juiceCsvHeaders] } 4
    { method := "GET", endpoint := "api/Challenges/", body := none,
      uid := "u1", ts := "t1", outcome := SendOutcome.exn } rfl

/-- `random.choice`: the element selected at a reduced index is in the
list. -/
theorem getDmodMem {α : Type} (l : List α) (i : Nat) (d : α)
    (h : l ≠ []) : l.getD (i % l.length) d ∈ l := by
  have hlen : 0 < l.length := List.length_pos.mpr h
  have hmod : i % l.length < l.length := Nat.mod_lt _ hlen
  rw [List.getD_eq_getElem?_getD, List.getElem?_eq_getElem hmod]
  simp

/-- Every allowed-method list in the endpoint tables is drawn from
`HTTP_METHODS`. -/
theorem endpointMethods_subset_httpMethods (ep : DvwaEndpoint) :
    ∀ m ∈ endpointMethods ep, m ∈ httpMethods := by
  cases ep with
  | module i =>
    simp only [endpointMethods]
    have hmem : dvwaModules.getD (i % dvwaModules.length) ("", ["GET"]) ∈
        dvwaModules := getDmodMem _ i _ (by decide)
    have hall : ∀ p ∈ dvwaModules, ∀ m ∈ p.2, m ∈ httpMethods := by decide
    exact hall _ hmem
  | common i =>
    simp only [endpointMethods]
    have hmem : dvwaCommonPages.getD (i % dvwaCommonPages.length)
        ("", ["GET"]) ∈ dvwaCommonPages := getDmodMem _ i _ (by decide)
    have hall : ∀ p ∈ dvwaCommonPages, ∀ m ∈ p.2, m ∈ httpMethods := by
      decide
    exact hall _ hmem
  | discovered =>
    intro m hm
    simp only [endpointMethods] at hm
    rw [List.mem_singleton.mp hm]
    decide

/-- A method selected by `dvwaChooseMethod` always has remaining quota,
and comes from the endpoint's list unless every endpoint method's quota
is exhausted (then it is any `HTTP_METHODS` member with quota). -/
theorem dvwaChooseMethod_spec (counts sentBy : String → Nat)
    (epMs : List String) (pick : Nat) (m : String)
    (h : dvwaChooseMethod counts sentBy epMs pick = some m) :
    sentBy m < counts m ∧
      (m ∈ epMs ∨
        (m ∈ httpMethods ∧ ∀ m2 ∈ epMs, counts m2 ≤ sentBy m2)) := by
  simp only [dvwaChooseMethod] at h
  by_cases h0 : (epMs.filter (fun x => sentBy x < counts x)).isEmpty = true
  · rw [if_pos h0] at h
    by_cases h1 : (httpMethods.filter
        (fun x => sentBy x < counts x)).isEmpty = true
    · rw [if_pos h1] at h
      exact absurd h (by simp)
    · rw [if_neg h1] at h
      have hne : httpMethods.filter (fun x => sentBy x < counts x) ≠ [] :=
        fun hh => h1 (by simp [hh])
      have hmem := getDmodMem _ pick "GET" hne
      rw [Option.some_inj.mp h] at hmem
      have hf := List.mem_filter.mp hmem
      refine ⟨by simpa using hf.2, Or.inr ⟨hf.1, ?_⟩⟩
      intro m2 hm2
      have h0nil : epMs.filter (fun x => sentBy x < counts x) = [] := by
        simpa [List.isEmpty_iff] using h0
      have := List.filter_eq_nil_iff.mp h0nil m2 hm2
      simpa [Nat.not_lt] using this
  · rw [if_neg h0] at h
    have hne : epMs.filter (fun x => sentBy x < counts x) ≠ [] :=
      fun hh => h0 (by simp [hh])
    have hmem := getDmodMem _ pick "GET" hne
    rw [Option.some_inj.mp h] at hmem
    have hf := List.mem_filter.mp hmem
    exact ⟨by simpa using hf.2, Or.inl hf.1⟩

/-- If a loop iteration actually issued a request with method `m`, then
`m` is the method the selection step chose. -/
theorem dvwaLoopStep_sentRequest (nSessions : Nat)
    (counts : String → Nat) (st : DvwaState) (env : DvwaEnv) (m : String)
    (h : (dvwaLoopStep nSessions counts st env).sentRequest = some m) :
    dvwaChooseMethod counts st.sentBy (endpointMethods env.endpoint)
      env.pick = some m := by
  cases hC : dvwaChooseMethod counts st.sentBy
    (endpointMethods env.endpoint) env.pick with
  | none => simp [dvwaLoopStep, hC] at h
  | some method =>
    simp only [dvwaLoopStep, hC] at h
    by_cases hdup : st.usedSignatures.contains (dvwaSig method env.url
      env.params env.requestData env.contentType env.headers) = true
    · rw [if_pos hdup] at h
      exact absurd h (by simp)
    · rw [if_neg hdup] at h
      by_cases hauth : ((substrContains "vulnerabilities/" env.url ||
          substrContains "security.php" env.url ||
          substrContains "index.php" env.url) && !env.authOk) = true
      · rw [if_pos hauth] at h
        exact absurd h (by simp)
      · rw [if_neg hauth] at h
        cases henv : env.outcome with
        | ok status respLen =>
          rw [henv] at h
          have hm2 : method = m := by simpa using h
          exact congrArg some hm2
        | exn =>
          rw [henv] at h
          have hm2 : method = m := by simpa using h
          exact congrArg some hm2

/-- Bumping one list member's counter raises the mapped sum by one. -/
theorem sum_map_bump (f : String → Nat) (m : String) :
    ∀ l : List String, l.Nodup → m ∈ l →
      (l.map (bumpBy f m)).sum = (l.map f).sum + 1 := by
  intro l
  induction l with
  | nil => intro _ hm; cases hm
  | cons a t ih =>
    intro hnd hm
    rcases List.mem_cons.mp hm with rfl | hmt
    · have hat : m ∉ t := (List.nodup_cons.mp hnd).1
      have htail : t.map (bumpBy f m) = t.map f := by
        apply List.map_congr_left
        intro x hx
        have hxm : ¬x = m := fun hxa => hat (hxa ▸ hx)
        simp [bumpBy, hxm]
      rw [List.map_cons, List.map_cons, List.sum_cons, List.sum_cons,
        htail]
      simp [bumpBy]
      omega
    · have hna : ¬a = m := by
        rintro rfl
        exact (List.nodup_cons.mp hnd).1 hmt
      have ht := ih (List.nodup_cons.mp hnd).2 hmt
      rw [List.map_cons, List.map_cons, List.sum_cons, List.sum_cons, ht]
      simp [bumpBy, hna]
      omega

/-- One loop iteration preserves the quota bound and the equality between
the per-method sum and the total sent counter. -/
theorem dvwaLoopStep_inv (nSessions : Nat) (counts : String → Nat)
    (st : DvwaState) (env : DvwaEnv)
    (h1 : ∀ m, st.sentBy m ≤ counts m)
    (h2 : (httpMethods.map st.sentBy).sum = st.sent) :
    (∀ m, (dvwaLoopStep nSessions counts st env).state.sentBy m ≤
      counts m) ∧
    (httpMethods.map
      (dvwaLoopStep nSessions counts st env).state.sentBy).sum =
      (dvwaLoopStep nSessions counts st env).state.sent := by
  rcases hC : dvwaChooseMethod counts st.sentBy
    (endpointMethods env.endpoint) env.pick with _ | method
  · simp only [dvwaLoopStep, hC]
    exact ⟨h1, h2⟩
  · have hspec := dvwaChooseMethod_spec counts st.sentBy _ env.pick
      method hC
    have hmhttp : method ∈ httpMethods := by
      rcases hspec.2 with hin | hfb
      · exact endpointMethods_subset_httpMethods _ _ hin
      · exact hfb.1
    simp only [dvwaLoopStep, hC]
    split_ifs
    · exact ⟨h1, h2⟩
    · exact ⟨h1, h2⟩
    · cases env.outcome with
      | exn => exact ⟨h1, h2⟩
      | ok status respLen =>
        constructor
        · intro m
          by_cases hm : m = method
          · subst hm
            simpa [bumpBy] using hspec.1
          · simpa [bumpBy, hm] using h1 m
        · simp [sum_map_bump st.sentBy method httpMethods (by decide)
            hmhttp, h2]

/-- The loop invariant holds along every run of the Driver loop. -/
theorem dvwaRun_inv (nSessions count : Nat) (counts : String → Nat)
    (envs : List DvwaEnv) :
    ∀ st, (∀ m, st.sentBy m ≤ counts m) →
      (httpMethods.map st.sentBy).sum = st.sent →
      (∀ m, (dvwaRun nSessions count counts st envs).sentBy m ≤
        counts m) ∧
      (httpMethods.map
        (dvwaRun nSessions count counts st envs).sentBy).sum =
        (dvwaRun nSessions count counts st envs).sent := by
  induction envs with
  | nil => intro st h1 h2; exact ⟨h1, h2⟩
  | cons e es ih =>
    intro st h1 h2
    by_cases hlt : st.sent < count
    · have hstep := dvwaLoopStep_inv nSessions counts st e h1 h2
      by_cases hb : (dvwaLoopStep nSessions counts st e).broke = true
      · simp only [dvwaRun, if_pos hlt, hb, if_true]
        exact hstep
      · simp only [dvwaRun, if_pos hlt, hb, if_false]
        exact ih _ hstep.1 hstep.2
    · simp only [dvwaRun, if_neg hlt]
      exact ⟨h1, h2⟩

/-- When every `HTTP_METHODS` quota is exhausted, no method can be
selected. -/
theorem dvwaChooseMethod_exhausted (counts sentBy : String → Nat)
    (epMs : List String) (pick : Nat)
    (hsub : ∀ m ∈ epMs, m ∈ httpMethods)
    (hex : ∀ m ∈ httpMethods, counts m ≤ sentBy m) :
    dvwaChooseMethod counts sentBy epMs pick = none := by
  have h1 : epMs.filter (fun x => sentBy x < counts x) = [] :=
    List.filter_eq_nil_iff.mpr (by
      intro a ha
      simpa [Nat.not_lt] using hex a (hsub a ha))
  have h2 : httpMethods.filter (fun x => sentBy x < counts x) = [] :=
    List.filter_eq_nil_iff.mpr (by
      intro a ha
      simpa [Nat.not_lt] using hex a ha)
  simp [dvwaChooseMethod, h1, h2]

/-- C6: throughout every run of the DVWA Driver loop, starting from the
initial state, each method's running counter never exceeds its target,
the per-method counters sum to the reported total sent count, and in any
state where every method's quota is exhausted the loop body hits its
`break`. -/
theorem c6_quota_conservation :
    (∀ nSessions count counts envs m,
      (dvwaRun nSessions count counts dvwaInitState envs).sentBy m ≤
        counts m) ∧
    (∀ nSessions count counts envs,
      (httpMethods.map
        (dvwaRun nSessions count counts dvwaInitState envs).sentBy).sum =
        (dvwaRun nSessions count counts dvwaInitState envs).sent) ∧
    (∀ nSessions counts st env,
      (∀ m ∈ httpMethods, counts m ≤ st.sentBy m) →
      (dvwaLoopStep nSessions counts st env).broke = true) := by
  refine ⟨?_, ?_, ?_⟩
  · intro nSessions count counts envs m
    exact (dvwaRun_inv nSessions count counts envs dvwaInitState
      (fun _ => Nat.zero_le _) rfl).1 m
  · intro nSessions count counts envs
    exact (dvwaRun_inv nSessions count counts envs dvwaInitState
      (fun _ => Nat.zero_le _) rfl).2
  · intro nSessions counts st env hex
    have hnone := dvwaChooseMethod_exhausted counts st.sentBy
      (endpointMethods env.endpoint) env.pick
      (endpointMethods_subset_httpMethods env.endpoint) hex
    simp [dvwaLoopStep, hnone]

/-- C6 witness: with an all-zero quota the very first iteration breaks. -/
theorem c6_quota_conservation_witness :
    (dvwaLoopStep 6 (fun _ => 0) dvwaInitState
      { endpoint := DvwaEndpoint.discovered, pick := 0, url := "",
        params := [], requestData := PyBody.noneB, contentType := "",
        headers := [], authOk := true, outcome := SendOutcome.exn,
        logTime := 0, requestSize := 0, respUrl := "",
        logData := "" }).broke = true :=
  c6_quota_conservation.2.2 6 (fun _ => 0) dvwaInitState
    { endpoint := DvwaEndpoint.discovered, pick := 0, url := "",
      params := [], requestData := PyBody.noneB, contentType := "",
      headers := [], authOk := true, outcome := SendOutcome.exn,
      logTime := 0, requestSize := 0, respUrl := "",
      logData := "" }
    (by decide)

/-- C7 counterexample: with targets GET=1, POST=1, once the single GET has
been sent (first iteration, sqli module), the next iteration samples the
GET-only `xss_r` module, finds its method quota exhausted, falls back to
POST, and actually sends a POST to that endpoint — a method outside the
descriptor's allowed set. -/
theorem c7_fallback_escapes_descriptor :
    (dvwaLoopStep 6
      (fun m => if m = "GET" then 1 else if m = "POST" then 1 else 0)
      (dvwaLoopStep 6
        (fun m => if m = "GET" then 1 else if m = "POST" then 1 else 0)
        dvwaInitState
        { endpoint := DvwaEndpoint.module 0, pick := 0,
          url := "http://localhost:8081/DVWA/vulnerabilities/sqli/",
          params := [("id", PyVal.pstr "1"),
                     ("Submit", PyVal.pstr "Submit")],
          requestData := PyBody.noneB,
          contentType := "application/x-www-form-urlencoded",
          headers := [], authOk := true, outcome := SendOutcome.ok 200 5,
          logTime := 0, requestSize := 0, respUrl := "",
          logData := "" }).state
      { endpoint := DvwaEndpoint.module 2, pick := 0,
        url := "http://localhost:8081/DVWA/vulnerabilities/xss_r/",
        params := [("name", PyVal.pstr "a")],
        requestData := PyBody.noneB,
        contentType := "application/x-www-form-urlencoded",
        headers := [], authOk := true, outcome := SendOutcome.ok 200 5,
        logTime := 1, requestSize := 0, respUrl := "",
        logData := "" }).sentRequest = some "POST" ∧
    "POST" ∉ endpointMethods (DvwaEndpoint.module 2) := by
  constructor
  · decide
  · decide

/-- C7 (amended): every request the DVWA engine actually sends uses a
method with remaining quota that belongs to the sampled descriptor's
allowed method set, **unless** every method of that descriptor has its
quota exhausted, in which case the engine falls back to any
`HTTP_METHODS` member with remaining quota. -/
theorem c7_method_in_descriptor_unless_exhausted :
    ∀ nSessions counts st env m,
      (dvwaLoopStep nSessions counts st env).sentRequest = some m →
        st.sentBy m < counts m ∧
        (m ∈ endpointMethods env.endpoint ∨
          (m ∈ httpMethods ∧
            ∀ m2 ∈ endpointMethods env.endpoint,
              counts m2 ≤ st.sentBy m2)) := by
  intro nSessions counts st env m h
  exact dvwaChooseMethod_spec counts st.sentBy
    (endpointMethods env.endpoint) env.pick m
    (dvwaLoopStep_sentRequest nSessions counts st env m h)

/-- C7 witness: the first concrete iteration of the C7 scenario sends a
GET that does belong to the sqli descriptor's allowed set. -/
theorem c7_method_in_descriptor_unless_exhausted_witness :
    dvwaInitState.sentBy "GET" <
      (fun m => if m = "GET" then 1 else if m = "POST" then 1 else 0)
        "GET" ∧
    ("GET" ∈ endpointMethods (DvwaEndpoint.module 0) ∨
      ("GET" ∈ httpMethods ∧
        ∀ m2 ∈ endpointMethods (DvwaEndpoint.module 0),
          (fun m => if m = "GET" then 1 else if m = "POST" then 1 else 0)
            m2 ≤ dvwaInitState.sentBy m2)) :=
  c7_method_in_descriptor_unless_exhausted 6
    (fun m => if m = "GET" then 1 else if m = "POST" then 1 else 0)
    dvwaInitState
    { endpoint := DvwaEndpoint.module 0, pick := 0,
      url := "http://localhost:8081/DVWA/vulnerabilities/sqli/",
      params := [("id", PyVal.pstr "1"), ("Submit", PyVal.pstr "Submit")],
      requestData := PyBody.noneB,
      contentType := "application/x-www-form-urlencoded",
      headers := [], authOk := true, outcome := SendOutcome.ok 200 5,
      logTime := 0, requestSize := 0, respUrl := "", logData := "" }
    "GET" (by decide)

/-- C8: with `AUTH_TTL = 600`, a session authenticated at `t0` that issues
a request at `t0 + 601` triggers exactly one re-authentication call
before the send; while the session is authenticated and the TTL has not
elapsed, the refresh check returns `True` immediately with zero network
activity (and so does a non-forced `_authenticate_session`). -/
theorem c8_auth_ttl_expiry :
    (∀ t0 : Int, ∀ loginOk,
      (maybeRefreshAuth { isAuth := true, lastAuth := t0 } (t0 + 601)
        loginOk).2.2 = 1) ∧
    (∀ st now loginOk, st.isAuth = true →
      now - st.lastAuth < authTtlSeconds →
      maybeRefreshAuth st now loginOk = (true, st, 0) ∧
      authenticateSession st now false loginOk = (true, st, 0)) := by
  constructor
  · intro t0 loginOk
    have hge : (t0 + 601) - t0 ≥ authTtlSeconds := by
      simp only [authTtlSeconds]
      omega
    simp only [maybeRefreshAuth, authenticateSession]
    rw [if_neg (by simp), if_pos hge]
    cases loginOk <;> simp
  · intro st now loginOk hAuth hTtl
    constructor
    · simp only [maybeRefreshAuth, hAuth]
      rw [if_neg (by simp), if_neg (not_le.mpr hTtl)]
    · simp [authenticateSession, hAuth, hTtl]

/-- C8 witness: authenticated at time 0, a request at 601 performs exactly
one re-authentication; authenticated at 100, a request at 400 refreshes
nothing and succeeds immediately. -/
theorem c8_auth_ttl_expiry_witness :
    (maybeRefreshAuth { isAuth := true, lastAuth := 0 } 601 true).2.2 =
      1 ∧
    maybeRefreshAuth { isAuth := true, lastAuth := 100 } 400 true =
      (true, { isAuth := true, lastAuth := 100 }, 0) :=
  ⟨by simpa using c8_auth_ttl_expiry.1 0 true,
   (c8_auth_ttl_expiry.2 { isAuth := true, lastAuth := 100 } 400 true
     rfl (by decide)).1⟩

end WafDataset
